import Mathlib

/-!
Verification of the DCID SDK example backend server
(`backend-server-examples/python/main.py`): a FastAPI glue layer that
parses request bodies, forwards them to the external `dcid_server_sdk`
client, reshapes successful results into JSON responses, and translates
SDK exceptions into HTTP error responses.

The embedding models Python strings by their code-point sequences
(`String` / `String.data`), JSON documents by the inductive `JValue`,
the SDK's exception hierarchy by `SDKException`, and the observable
interactions of a handler with the process-wide SDK client by a trace
of `SDKAction`s.  Each route handler becomes a Lean function of its
parsed request, the optional `authorization` header, and an oracle for
the outcome of its single SDK call; it returns the trace of SDK
interactions together with the HTTP response.
-/

/-- JSON-like values, used for request/response bodies and for fields of
SDK results whose Python type is `Any`. -/
inductive JValue where
  | null
  | bool (b : Bool)
  | num (n : Nat)
  | str (s : String)
  | arr (elems : List JValue)
  | obj (fields : List (String × JValue))

/-- An HTTP JSON response: a status code and a JSON object body, as
produced by FastAPI's `JSONResponse(status_code=..., content={...})` or
by returning a plain dict (status 200). -/
structure JSONResponse where
  status_code : Nat
  content : List (String × JValue)

/-- The exceptions a handler can observe.  `authenticationError`,
`networkError`, `serverError` are the SDK's dedicated subclasses of the
base `DCIDServerSDKError`; `sdkError` is an instance of the base class
belonging to none of those subclasses; `otherError` is any exception
outside the SDK hierarchy (for example the `KeyError` a handler body can
raise).  All SDK classes carry the base class's `status_code` attribute
(an `int` or `None`); `is_api_key_error` exists on `AuthenticationError`
and `code` on `NetworkError`.  The `message` argument models `str(error)`. -/
inductive SDKException where
  | authenticationError (message : String) (status_code : Option Nat) (is_api_key_error : Bool)
  | networkError (message : String) (code : String) (status_code : Option Nat)
  | serverError (message : String) (status_code : Option Nat)
  | sdkError (message : String) (status_code : Option Nat)
  | otherError (message : String)

/-- `str(error)`. -/
def SDKException.message : SDKException → String
  | .authenticationError m _ _ => m
  | .networkError m _ _ => m
  | .serverError m _ => m
  | .sdkError m _ => m
  | .otherError m => m

/-- The `status_code` attribute of the SDK error classes.  A non-SDK
exception has no such attribute; the handler never reads it there, so
the value returned for `otherError` is irrelevant. -/
def SDKException.status_code : SDKException → Option Nat
  | .authenticationError _ s _ => s
  | .networkError _ _ s => s
  | .serverError _ s => s
  | .sdkError _ s => s
  | .otherError _ => none

/-- The `is_api_key_error` attribute; only `AuthenticationError` has it,
and the handler only reads it under `isinstance(error, AuthenticationError)`. -/
def SDKException.is_api_key_error : SDKException → Bool
  | .authenticationError _ _ k => k
  | _ => false

/-- The `code` attribute; only `NetworkError` has it, and the handler
only reads it under `isinstance(error, NetworkError)`. -/
def SDKException.code : SDKException → String
  | .networkError _ c _ => c
  | _ => ""

/-- `isinstance(error, AuthenticationError)`. -/
def SDKException.isAuthenticationError : SDKException → Bool
  | .authenticationError _ _ _ => true
  | _ => false

/-- `isinstance(error, NetworkError)`. -/
def SDKException.isNetworkError : SDKException → Bool
  | .networkError _ _ _ => true
  | _ => false

/-- `isinstance(error, ServerError)`. -/
def SDKException.isServerError : SDKException → Bool
  | .serverError _ _ => true
  | _ => false

/-- `isinstance(error, DCIDServerSDKError)`: every SDK error class is a
subclass of the base class, so all constructors but `otherError` satisfy it. -/
def SDKException.isDCIDServerSDKError : SDKException → Bool
  | .otherError _ => false
  | _ => true

/-- Python's `x or d` for an optional integer `x`: `None` and the falsy
integer `0` both fall through to the default `d`. -/
def pyOr (x : Option Nat) (d : Nat) : Nat :=
  match x with
  | none => d
  | some n => if n = 0 then d else n

/-- `handle_sdk_error` (main.py lines 155-190): classify an exception by
the first matching `isinstance` check, in source order, and build the
corresponding `JSONResponse`.  The initial debug `print` calls have no
observable effect on the response and are not modelled. -/
def handle_sdk_error (error : SDKException) : JSONResponse :=
  if error.isAuthenticationError then
    { status_code := pyOr error.status_code 401
      content := [("error", .str error.message),
                  ("type", .str "AuthenticationError"),
                  ("isAPIKeyError", .bool error.is_api_key_error)] }
  else if error.isNetworkError then
    { status_code := 502
      content := [("error", .str error.message),
                  ("type", .str "NetworkError"),
                  ("code", .str error.code)] }
  else if error.isServerError then
    { status_code := pyOr error.status_code 500
      content := [("error", .str error.message),
                  ("type", .str "ServerError")] }
  else if error.isDCIDServerSDKError then
    { status_code := pyOr error.status_code 500
      content := [("error", .str error.message),
                  ("type", .str "SDKError")] }
  else
    { status_code := 500
      content := [("error", .str error.message),
                  ("type", .str "UnknownError")] }

/-- Python's `s.startswith(p)`: `p`'s code points are a prefix of `s`'s. -/
def pyStartswith (s p : String) : Bool :=
  p.data.isPrefixOf s.data

/-- Python's slice `s[n:]`, by code points. -/
def pySliceFrom (s : String) (n : Nat) : String :=
  ⟨s.data.drop n⟩

/-- The observable interactions of a handler with the shared SDK client:
a remote SDK operation (named, with the fields of its options object),
`sdk.set_auth_token(token)`, or `sdk.set_tokens(tokens)`. -/
inductive SDKAction where
  | call (op : String) (args : List (String × JValue))
  | setAuthToken (token : String)
  | setTokens (access_token refresh_token : String)

def SDKAction.isCall : SDKAction → Bool
  | .call _ _ => true
  | _ => false

/-- Token installations: the two local mutations of the SDK client's
auth state a handler may perform besides its one remote call. -/
def SDKAction.isTokenInstall : SDKAction → Bool
  | .setAuthToken _ => true
  | .setTokens _ _ => true
  | .call _ _ => false

def SDKAction.isSetTokens : SDKAction → Bool
  | .setTokens _ _ => true
  | _ => false

/-- The auth-relevant state of the process-wide SDK client. -/
structure SDKState where
  auth_token : Option String
  stored_tokens : Option (String × String)

/-- Effect of one SDK interaction on the client's local auth state.  A
remote `call` does not mutate it; `set_auth_token` overwrites the active
auth token; `set_tokens` stores the token pair (its further internal
effect is SDK-internal and irrelevant to the claims below). -/
def applyAction (s : SDKState) : SDKAction → SDKState
  | .call _ _ => s
  | .setAuthToken t => { s with auth_token := some t }
  | .setTokens a r => { s with stored_tokens := some (a, r) }

def applyActions (s : SDKState) (actions : List SDKAction) : SDKState :=
  actions.foldl applyAction s

/-- `set_auth_from_request` (main.py lines 58-62): when the
`authorization` header is present and starts with `Bearer `, install the
rest of the header as the SDK's auth token; otherwise do nothing.  The
Python guard `authorization and ...` only excludes `None` (the `none`
case here) and the empty string, which fails the prefix test anyway. -/
def set_auth_from_request (authorization : Option String) : List SDKAction :=
  match authorization with
  | some a => if pyStartswith a "Bearer " then [.setAuthToken (pySliceFrom a 7)] else []
  | none => []

def countCalls (trace : List SDKAction) : Nat :=
  trace.countP (fun a => a.isCall)

def countSetTokens (trace : List SDKAction) : Nat :=
  trace.countP (fun a => a.isSetTokens)

/-- The top-level keys of a response body. -/
def contentKeys (r : JSONResponse) : List String :=
  r.content.map Prod.fst

def hasKey (r : JSONResponse) (k : String) : Bool :=
  (contentKeys r).contains k

/-- `None` → JSON null, `Some s` → JSON string, as pydantic/FastAPI
serialize optional string fields. -/
def optJ : Option String → JValue
  | some s => .str s
  | none => .null

/-! ### Request models (the pydantic classes of main.py) -/

structure RegisterOTPRequest where
  email : Option String
  phone : Option String

structure ConfirmOTPRequest where
  email : Option String
  phone : Option String
  otp : String

structure RefreshTokenRequest where
  refresh_token : String

structure GenerateEncryptionKeyRequest where
  did : String
  owner_email : String

structure GetEncryptedKeyRequest where
  did : String

structure IssueCredentialRequest where
  did : String
  credential_name : String
  values : List (String × JValue)
  owner_email : String

structure StoreCredentialRequest where
  did : String
  credential_type : String
  credential : JValue
  encrypted : Bool

structure RetrieveUserCredentialRequest where
  did : String
  credential_type : String
  include_cid_only : Bool

structure GetAllUserCredentialsRequest where
  did : String
  include_credential_data : Bool

structure VerifySignInRequest where
  credential_name : String

structure PostLinkStoreRequest where
  id : String
  thid : String
  type : String
  from_did : String
  typ : String
  body : List (String × JValue)

structure VerifyCallbackRequest where
  token : String

structure StartSessionRequest where
  user_id : Option String
  anonymous_id : Option String
  page_location : Option String
  session_id : Option String

structure EndSessionRequest where
  session_id : String
  user_id : Option String
  anonymous_id : Option String
  ended_at : Option String

/-- Models pydantic validation of `StoreCredentialRequest`: the
`encrypted` field (raw JSON value `rawEncrypted`, `none` when the key is
omitted from the body) defaults to `True`. -/
def parseStoreCredentialRequest (did credentialType : String) (credential : JValue)
    (rawEncrypted : Option Bool) : StoreCredentialRequest :=
  { did := did, credential_type := credentialType, credential := credential,
    encrypted := rawEncrypted.getD true }

/-- Models pydantic validation of `RetrieveUserCredentialRequest`:
`includeCidOnly` defaults to `False` when omitted. -/
def parseRetrieveUserCredentialRequest (did credentialType : String)
    (rawIncludeCidOnly : Option Bool) : RetrieveUserCredentialRequest :=
  { did := did, credential_type := credentialType,
    include_cid_only := rawIncludeCidOnly.getD false }

/-- Models pydantic validation of `GetAllUserCredentialsRequest`:
`includeCredentialData` defaults to `False` when omitted. -/
def parseGetAllUserCredentialsRequest (did : String)
    (rawIncludeCredentialData : Option Bool) : GetAllUserCredentialsRequest :=
  { did := did, include_credential_data := rawIncludeCredentialData.getD false }

/-! ### SDK result models

Fields whose Python type this repository does not constrain are
modelled as `JValue`; the token pair of `confirm_otp` / `refresh_token`
is a pair of strings. -/

structure OTPResult where
  otp : JValue

structure AuthTokens where
  access_token : String
  refresh_token : String

structure EncryptedKeyResult where
  encrypted_key : JValue
  did : JValue
  message : JValue

structure GenerateKeyResult where
  encrypted_key : JValue
  did : JValue
  owner_email : JValue
  message : JValue

structure CredentialOfferResult where
  status : JValue
  tx_id : JValue
  claim_id : JValue
  offer_available : JValue
  qr_code_link : JValue
  offer : JValue
  message : JValue

structure StoreCredentialResult where
  cid : JValue
  did : JValue
  credential_type : JValue
  message : JValue
  encrypted : JValue

structure RetrieveCredentialResult where
  cid : JValue
  did : JValue
  credential_type : JValue
  message : JValue
  credential : JValue
  encrypted : JValue

structure AllCredentialsResult where
  credentials : JValue
  did : JValue
  count : JValue
  message : JValue

structure VerifySignInResult where
  proof_request_url : JValue
  iden3comm_url : JValue
  session_id : JValue

structure LinkStoreMessage where
  id : JValue
  thid : JValue
  type : JValue
  from_did : JValue
  typ : JValue
  body : JValue

structure PostLinkStoreResult where
  proof_request_url : JValue
  iden3comm_url : JValue

structure VerifyCallbackResult where
  id : JValue
  typ : JValue
  type : JValue
  thid : JValue
  body : JValue
  from_did : JValue
  -- the Python attribute is `to`, a reserved token in Lean
  to_did : JValue

structure StartSessionResult where
  success : JValue
  session_id : JValue
  timestamp : JValue
  anonymous_id : JValue
  linked : JValue

structure EndSessionResult where
  success : JValue
  timestamp : JValue

/-! ### Route handlers

Each handler takes its parsed request, the optional `authorization`
header where the route reads one, and an oracle `outcome` for the result
of its single SDK call (`Except.error e` models the call raising `e`).
It returns the trace of SDK interactions performed together with the
HTTP response; a returned dict carries FastAPI's default status 200. -/

/-- `GET /health` (main.py lines 193-196).  The Python function reads no
request data and no SDK state; the `SDKState` argument only records that
the response is independent of it. -/
def health (_sdkState : SDKState) : JSONResponse :=
  { status_code := 200
    content := [("status", .str "ok"),
                ("service", .str "dcid-server-sdk-test-server")] }

/-- `POST /api/auth/sign-in/initiate` (main.py lines 203-212). -/
def sign_in_initiate (request : RegisterOTPRequest)
    (outcome : Except SDKException OTPResult) : List SDKAction × JSONResponse :=
  let callAct := SDKAction.call "sdk.auth.register_otp"
      [("email", optJ request.email), ("phone", optJ request.phone)]
  match outcome with
  | .error e => ([callAct], handle_sdk_error e)
  | .ok result => ([callAct], { status_code := 200, content := [("otp", result.otp)] })

/-- `POST /api/auth/sign-in/confirm` (main.py lines 215-230): confirm the
OTP, install the returned token pair with `sdk.set_tokens`, and echo it. -/
def sign_in_confirm (request : ConfirmOTPRequest)
    (outcome : Except SDKException AuthTokens) : List SDKAction × JSONResponse :=
  let callAct := SDKAction.call "sdk.auth.confirm_otp"
      [("email", optJ request.email), ("phone", optJ request.phone),
       ("otp", .str request.otp)]
  match outcome with
  | .error e => ([callAct], handle_sdk_error e)
  | .ok tokens =>
      ([callAct, .setTokens tokens.access_token tokens.refresh_token],
       { status_code := 200
         content := [("access_token", .str tokens.access_token),
                     ("refresh_token", .str tokens.refresh_token)] })

/-- `POST /api/auth/admin-login` (main.py lines 233-242). -/
def admin_login (request : RegisterOTPRequest)
    (outcome : Except SDKException OTPResult) : List SDKAction × JSONResponse :=
  let callAct := SDKAction.call "sdk.auth.admin_login"
      [("email", optJ request.email), ("phone", optJ request.phone)]
  match outcome with
  | .error e => ([callAct], handle_sdk_error e)
  | .ok result => ([callAct], { status_code := 200, content := [("otp", result.otp)] })

/-- `POST /api/auth/token/refresh` (main.py lines 245-258). -/
def token_refresh (request : RefreshTokenRequest)
    (outcome : Except SDKException AuthTokens) : List SDKAction × JSONResponse :=
  let callAct := SDKAction.call "sdk.auth.refresh_token"
      [("refresh_token", .str request.refresh_token)]
  match outcome with
  | .error e => ([callAct], handle_sdk_error e)
  | .ok tokens =>
      ([callAct, .setTokens tokens.access_token tokens.refresh_token],
       { status_code := 200
         content := [("access_token", .str tokens.access_token),
                     ("refresh_token", .str tokens.refresh_token)] })

/-- `POST /api/identity/get-encrypted-key` (main.py lines 265-279). -/
def get_encrypted_key (request : GetEncryptedKeyRequest) (authorization : Option String)
    (outcome : Except SDKException EncryptedKeyResult) : List SDKAction × JSONResponse :=
  let trace := set_auth_from_request authorization ++
      [SDKAction.call "sdk.identity.encryption.get_key" [("did", .str request.did)]]
  match outcome with
  | .error e => (trace, handle_sdk_error e)
  | .ok result =>
      (trace,
       { status_code := 200
         content := [("encryptedKey", result.encrypted_key),
                     ("did", result.did),
                     ("message", result.message)] })

/-- `POST /api/identity/generate-encrypted-key` (main.py lines 282-299). -/
def generate_encrypted_key (request : GenerateEncryptionKeyRequest)
    (authorization : Option String)
    (outcome : Except SDKException GenerateKeyResult) : List SDKAction × JSONResponse :=
  let trace := set_auth_from_request authorization ++
      [SDKAction.call "sdk.identity.encryption.generate_key"
        [("did", .str request.did), ("owner_email", .str request.owner_email)]]
  match outcome with
  | .error e => (trace, handle_sdk_error e)
  | .ok result =>
      (trace,
       { status_code := 200
         content := [("encryptedKey", result.encrypted_key),
                     ("did", result.did),
                     ("ownerEmail", result.owner_email),
                     ("message", result.message)] })

/-- Python's `key in result` on a dict. -/
def pyDictContains (d : List (String × JValue)) (k : String) : Bool :=
  (d.lookup k).isSome

/-- Python's `result[key]` on a dict: the value, or a raised `KeyError`
(an exception outside the SDK hierarchy). -/
def pyDictGet (d : List (String × JValue)) (k : String) : Except SDKException JValue :=
  match d.lookup k with
  | some v => .ok v
  | none => .error (.otherError ("KeyError: " ++ k))

/-- The success branch of `issue_credential` (main.py lines 319-323): two
mutually exclusive response shapes keyed on `qr_code_link` being present
in the result dict; a missing required key raises `KeyError`, which the
route's `except Exception` turns into an error response. -/
def issue_credential_success (result : List (String × JValue)) :
    Except SDKException JSONResponse :=
  if pyDictContains result "qr_code_link" then
    match pyDictGet result "qr_code_link" with
    | .error e => .error e
    | .ok q =>
      match pyDictGet result "schema_type" with
      | .error e => .error e
      | .ok s => .ok { status_code := 200, content := [("qrCodeLink", q), ("schemaType", s)] }
  else
    match pyDictGet result "tx_id" with
    | .error e => .error e
    | .ok t =>
      match pyDictGet result "claim_id" with
      | .error e => .error e
      | .ok c => .ok { status_code := 200, content := [("txId", t), ("claimId", c)] }

/-- `POST /api/identity/issuer/issue-credential` (main.py lines 306-325).
The SDK call returns a plain dict. -/
def issue_credential (request : IssueCredentialRequest) (authorization : Option String)
    (outcome : Except SDKException (List (String × JValue))) :
    List SDKAction × JSONResponse :=
  let trace := set_auth_from_request authorization ++
      [SDKAction.call "sdk.identity.issuer.issue_credential"
        [("did", .str request.did),
         ("credential_name", .str request.credential_name),
         ("values", .obj request.values),
         ("owner_email", .str request.owner_email)]]
  match outcome with
  | .error e => (trace, handle_sdk_error e)
  | .ok result =>
      match issue_credential_success result with
      | .ok resp => (trace, resp)
      | .error e => (trace, handle_sdk_error e)

/-- `GET /api/identity/issuer/get-credential-offer` (main.py lines 328-346). -/
def get_credential_offer (claimId txId : String) (authorization : Option String)
    (outcome : Except SDKException CredentialOfferResult) :
    List SDKAction × JSONResponse :=
  let trace := set_auth_from_request authorization ++
      [SDKAction.call "sdk.identity.issuer.get_credential_offer"
        [("claim_id", .str claimId), ("tx_id", .str txId)]]
  match outcome with
  | .error e => (trace, handle_sdk_error e)
  | .ok result =>
      (trace,
       { status_code := 200
         content := [("status", result.status),
                     ("txId", result.tx_id),
                     ("claimId", result.claim_id),
                     ("offerAvailable", result.offer_available),
                     ("qrCodeLink", result.qr_code_link),
                     ("offer", result.offer),
                     ("message", result.message)] })

/-- `POST /api/identity/ipfs/store-credential` (main.py lines 353-374). -/
def store_credential (request : StoreCredentialRequest) (authorization : Option String)
    (outcome : Except SDKException StoreCredentialResult) :
    List SDKAction × JSONResponse :=
  let trace := set_auth_from_request authorization ++
      [SDKAction.call "sdk.identity.ipfs.store_credential"
        [("did", .str request.did),
         ("credential_type", .str request.credential_type),
         ("credential", request.credential),
         ("encrypted", .bool request.encrypted)]]
  match outcome with
  | .error e => (trace, handle_sdk_error e)
  | .ok result =>
      (trace,
       { status_code := 200
         content := [("cid", result.cid),
                     ("did", result.did),
                     ("credentialType", result.credential_type),
                     ("message", result.message),
                     ("encrypted", result.encrypted)] })

/-- `POST /api/identity/ipfs/retrieve-user-credential` (main.py lines 377-398). -/
def retrieve_user_credential (request : RetrieveUserCredentialRequest)
    (authorization : Option String)
    (outcome : Except SDKException RetrieveCredentialResult) :
    List SDKAction × JSONResponse :=
  let trace := set_auth_from_request authorization ++
      [SDKAction.call "sdk.identity.ipfs.retrieve_user_credential"
        [("did", .str request.did),
         ("credential_type", .str request.credential_type),
         ("include_cid_only", .bool request.include_cid_only)]]
  match outcome with
  | .error e => (trace, handle_sdk_error e)
  | .ok result =>
      (trace,
       { status_code := 200
         content := [("cid", result.cid),
                     ("did", result.did),
                     ("credentialType", result.credential_type),
                     ("message", result.message),
                     ("credential", result.credential),
                     ("encrypted", result.encrypted)] })

/-- `POST /api/identity/get-all-user-credentials` (main.py lines 402-420). -/
def get_all_user_credentials (request : GetAllUserCredentialsRequest)
    (authorization : Option String)
    (outcome : Except SDKException AllCredentialsResult) :
    List SDKAction × JSONResponse :=
  let trace := set_auth_from_request authorization ++
      [SDKAction.call "sdk.identity.ipfs.get_all_user_credentials"
        [("did", .str request.did),
         ("include_credential_data", .bool request.include_credential_data)]]
  match outcome with
  | .error e => (trace, handle_sdk_error e)
  | .ok result =>
      (trace,
       { status_code := 200
         content := [("credentials", result.credentials),
                     ("did", result.did),
                     ("count", result.count),
                     ("message", result.message)] })

/-- `POST /api/identity/verify/sign-in` (main.py lines 427-441). -/
def verify_sign_in (request : VerifySignInRequest) (authorization : Option String)
    (outcome : Except SDKException VerifySignInResult) :
    List SDKAction × JSONResponse :=
  let trace := set_auth_from_request authorization ++
      [SDKAction.call "sdk.identity.verification.verify_sign_in"
        [("credential_name", .str request.credential_name)]]
  match outcome with
  | .error e => (trace, handle_sdk_error e)
  | .ok result =>
      (trace,
       { status_code := 200
         content := [("proofRequestUrl", result.proof_request_url),
                     ("iden3commUrl", result.iden3comm_url),
                     ("sessionId", result.session_id)] })

/-- `GET /api/identity/verification/link-store` (main.py lines 444-459). -/
def get_link_store (id : String) (authorization : Option String)
    (outcome : Except SDKException LinkStoreMessage) :
    List SDKAction × JSONResponse :=
  let trace := set_auth_from_request authorization ++
      [SDKAction.call "sdk.identity.verification.get_link_store" [("id", .str id)]]
  match outcome with
  | .error e => (trace, handle_sdk_error e)
  | .ok result =>
      (trace,
       { status_code := 200
         content := [("id", result.id),
                     ("thid", result.thid),
                     ("type", result.type),
                     ("from", result.from_did),
                     ("typ", result.typ),
                     ("body", result.body)] })

/-- `POST /api/identity/verification/link-store` (main.py lines 462-482). -/
def post_link_store (request : PostLinkStoreRequest) (authorization : Option String)
    (outcome : Except SDKException PostLinkStoreResult) :
    List SDKAction × JSONResponse :=
  let trace := set_auth_from_request authorization ++
      [SDKAction.call "sdk.identity.verification.post_link_store"
        [("id", .str request.id),
         ("thid", .str request.thid),
         ("type", .str request.type),
         ("from_did", .str request.from_did),
         ("typ", .str request.typ),
         ("body", .obj request.body)]]
  match outcome with
  | .error e => (trace, handle_sdk_error e)
  | .ok result =>
      (trace,
       { status_code := 200
         content := [("proofRequestUrl", result.proof_request_url),
                     ("iden3commUrl", result.iden3comm_url)] })

/-- `POST /api/identity/verification/callback` (main.py lines 485-503). -/
def verify_callback (request : VerifyCallbackRequest) (sessionId : String)
    (authorization : Option String)
    (outcome : Except SDKException VerifyCallbackResult) :
    List SDKAction × JSONResponse :=
  let trace := set_auth_from_request authorization ++
      [SDKAction.call "sdk.identity.verification.verify_callback"
        [("session_id", .str sessionId), ("token", .str request.token)]]
  match outcome with
  | .error e => (trace, handle_sdk_error e)
  | .ok result =>
      (trace,
       { status_code := 200
         content := [("id", result.id),
                     ("typ", result.typ),
                     ("type", result.type),
                     ("thid", result.thid),
                     ("body", result.body),
                     ("from", result.from_did),
                     ("to", result.to_did)] })

/-- `POST /api/analytics/start-session` (main.py lines 510-530). -/
def start_session (request : StartSessionRequest)
    (outcome : Except SDKException StartSessionResult) :
    List SDKAction × JSONResponse :=
  let callAct := SDKAction.call "sdk.analytics.start_session"
      [("user_id", optJ request.user_id),
       ("anonymous_id", optJ request.anonymous_id),
       ("page_location", optJ request.page_location),
       ("session_id", optJ request.session_id)]
  match outcome with
  | .error e => ([callAct], handle_sdk_error e)
  | .ok result =>
      ([callAct],
       { status_code := 200
         content := [("success", result.success),
                     ("session_id", result.session_id),
                     ("timestamp", result.timestamp),
                     ("anonymous_id", result.anonymous_id),
                     ("linked", result.linked)] })

/-- `POST /api/analytics/end-session` (main.py lines 533-547). -/
def end_session (request : EndSessionRequest)
    (outcome : Except SDKException EndSessionResult) :
    List SDKAction × JSONResponse :=
  let callAct := SDKAction.call "sdk.analytics.end_session"
      [("session_id", .str request.session_id),
       ("user_id", optJ request.user_id),
       ("anonymous_id", optJ request.anonymous_id),
       ("ended_at", optJ request.ended_at)]
  match outcome with
  | .error e => ([callAct], handle_sdk_error e)
  | .ok result =>
      ([callAct],
       { status_code := 200
         content := [("success", result.success), ("timestamp", result.timestamp)] })

/-! ### Helper lemmas -/

theorem handle_sdk_error_auth (m : String) (st : Option Nat) (k : Bool) :
    handle_sdk_error (.authenticationError m st k) =
      { status_code := pyOr st 401
        content := [("error", .str m), ("type", .str "AuthenticationError"),
                    ("isAPIKeyError", .bool k)] } := rfl

theorem handle_sdk_error_network (m c : String) (st : Option Nat) :
    handle_sdk_error (.networkError m c st) =
      { status_code := 502
        content := [("error", .str m), ("type", .str "NetworkError"),
                    ("code", .str c)] } := rfl

theorem handle_sdk_error_server (m : String) (st : Option Nat) :
    handle_sdk_error (.serverError m st) =
      { status_code := pyOr st 500
        content := [("error", .str m), ("type", .str "ServerError")] } := rfl

theorem handle_sdk_error_sdk (m : String) (st : Option Nat) :
    handle_sdk_error (.sdkError m st) =
      { status_code := pyOr st 500
        content := [("error", .str m), ("type", .str "SDKError")] } := rfl

theorem handle_sdk_error_other (m : String) :
    handle_sdk_error (.otherError m) =
      { status_code := 500
        content := [("error", .str m), ("type", .str "UnknownError")] } := rfl

theorem pyOr_none (d : Nat) : pyOr none d = d := rfl

theorem pyOr_some (s d : Nat) (h : s ≠ 0) : pyOr (some s) d = s := by
  simp [pyOr, h]

/-- Claim C1: for every exception raised by an SDK call in a handler,
`handle_sdk_error` classifies it by its class in the order
authentication, network, server, generic SDK, unknown: an
authentication error yields its own status (Python `or`, defaulting to
401 when absent) with an `isAPIKeyError` flag mirroring
`is_api_key_error`; a network error yields 502 with the error's
machine-readable `code`; a server error or any other SDK error yields
its status or 500; anything else yields 500 tagged `UnknownError`. -/
theorem C1_error_classification :
    (∀ m st k, handle_sdk_error (.authenticationError m st k) =
      { status_code := pyOr st 401
        content := [("error", .str m), ("type", .str "AuthenticationError"),
                    ("isAPIKeyError", .bool k)] })
  ∧ (∀ m c st, handle_sdk_error (.networkError m c st) =
      { status_code := 502
        content := [("error", .str m), ("type", .str "NetworkError"),
                    ("code", .str c)] })
  ∧ (∀ m st, handle_sdk_error (.serverError m st) =
      { status_code := pyOr st 500
        content := [("error", .str m), ("type", .str "ServerError")] })
  ∧ (∀ m st, handle_sdk_error (.sdkError m st) =
      { status_code := pyOr st 500
        content := [("error", .str m), ("type", .str "SDKError")] })
  ∧ (∀ m, handle_sdk_error (.otherError m) =
      { status_code := 500
        content := [("error", .str m), ("type", .str "UnknownError")] })
  ∧ (∀ m k, (handle_sdk_error (.authenticationError m none k)).status_code = 401) :=
  ⟨fun _m _st _k => rfl, fun _m _c _st => rfl, fun _m _st => rfl,
   fun _m _st => rfl, fun _m => rfl, fun _m _k => rfl⟩

/-- Claim C2 counterexample: a `NetworkError` is an SDK error; here it
carries the explicit upstream status 503, yet the response status is
502, not 503, so upstream status codes are not always preserved. -/
theorem C2_counterexample :
    (SDKException.networkError "Bad Gateway" "ECONNRESET" (some 503)).status_code = some 503
    ∧ (handle_sdk_error (.networkError "Bad Gateway" "ECONNRESET" (some 503))).status_code = 502
    ∧ (502 : Nat) ≠ 503 :=
  ⟨rfl, rfl, by decide⟩

/-- Claim C2 (amended): for every authentication, server, or generic SDK
error carrying an explicit truthy (nonzero) status code, the response
status equals that upstream status; a network error always yields 502
regardless of any carried status; when an authentication, server or
generic SDK error carries no status, the response defaults to the
class-specific status (401 or 500). -/
theorem C2_status_preservation :
    (∀ m k s, s ≠ 0 → (handle_sdk_error (.authenticationError m (some s) k)).status_code = s)
  ∧ (∀ m s, s ≠ 0 → (handle_sdk_error (.serverError m (some s))).status_code = s)
  ∧ (∀ m s, s ≠ 0 → (handle_sdk_error (.sdkError m (some s))).status_code = s)
  ∧ (∀ m c st, (handle_sdk_error (.networkError m c st)).status_code = 502)
  ∧ (∀ m k, (handle_sdk_error (.authenticationError m none k)).status_code = 401)
  ∧ (∀ m, (handle_sdk_error (.serverError m none)).status_code = 500)
  ∧ (∀ m, (handle_sdk_error (.sdkError m none)).status_code = 500) := by
  refine ⟨fun m k s hs => ?_, fun m s hs => ?_, fun m s hs => ?_,
          fun _m _c _st => rfl, fun _m _k => rfl, fun _m => rfl, fun _msg => rfl⟩ <;>
    simp [handle_sdk_error, SDKException.isAuthenticationError, SDKException.isNetworkError,
          SDKException.isServerError, SDKException.isDCIDServerSDKError,
          SDKException.status_code, pyOr, hs]

/-- Witness for C2_status_preservation at concrete inputs. -/
theorem C2_status_preservation_witness :
    (handle_sdk_error (.authenticationError "token expired" (some 403) false)).status_code = 403
    ∧ (handle_sdk_error (.serverError "upstream failed" (some 503))).status_code = 503
    ∧ (handle_sdk_error (.sdkError "unprocessable" (some 422))).status_code = 422 :=
  ⟨C2_status_preservation.1 "token expired" false 403 (by decide),
   C2_status_preservation.2.1 "upstream failed" 503 (by decide),
   C2_status_preservation.2.2.1 "unprocessable" 422 (by decide)⟩

/-- Claim C3: for every network error raised by the SDK, the response
status is exactly 502 regardless of the status or code carried inside
the error, and the error's `code` field appears in the JSON body. -/
theorem C3_network_error_502 :
    ∀ m c st, (handle_sdk_error (.networkError m c st)).status_code = 502
      ∧ ("code", JValue.str c) ∈ (handle_sdk_error (.networkError m c st)).content :=
  fun m c st =>
    ⟨rfl, List.Mem.tail _ (List.Mem.tail _ (List.Mem.head _))⟩

theorem countCalls_append (l₁ l₂ : List SDKAction) :
    countCalls (l₁ ++ l₂) = countCalls l₁ + countCalls l₂ := by
  simp [countCalls]

theorem countSetTokens_append (l₁ l₂ : List SDKAction) :
    countSetTokens (l₁ ++ l₂) = countSetTokens l₁ + countSetTokens l₂ := by
  simp [countSetTokens]

theorem countCalls_set_auth (a : Option String) :
    countCalls (set_auth_from_request a) = 0 := by
  cases a with
  | none => rfl
  | some s =>
    by_cases h : pyStartswith s "Bearer " = true <;>
      simp [set_auth_from_request, h, countCalls, List.countP_cons, List.countP_nil,
            SDKAction.isCall]

theorem countSetTokens_set_auth (a : Option String) :
    countSetTokens (set_auth_from_request a) = 0 := by
  cases a with
  | none => rfl
  | some s =>
    by_cases h : pyStartswith s "Bearer " = true <;>
      simp [set_auth_from_request, h, countSetTokens, List.countP_cons, List.countP_nil,
            SDKAction.isSetTokens]

theorem countCalls_auth_trace (a : Option String) (op : String) (args : List (String × JValue)) :
    countCalls (set_auth_from_request a ++ [SDKAction.call op args]) = 1 := by
  rw [countCalls_append, countCalls_set_auth]
  rfl

theorem countSetTokens_auth_trace (a : Option String) (op : String)
    (args : List (String × JValue)) :
    countSetTokens (set_auth_from_request a ++ [SDKAction.call op args]) = 0 := by
  rw [countSetTokens_append, countSetTokens_set_auth]
  rfl

/-- Every SDK interaction a handler can record is either its remote call
or a token installation: the handlers touch nothing else. -/
theorem all_call_or_install (l : List SDKAction) :
    (l.all fun a => a.isCall || a.isTokenInstall) = true := by
  rw [List.all_eq_true]
  intro a _
  cases a <;> rfl

/-- The trace of `issue_credential` does not depend on which branch of
the success body runs. -/
theorem issue_credential_fst (r : IssueCredentialRequest) (a : Option String)
    (outcome : Except SDKException (List (String × JValue))) :
    (issue_credential r a outcome).1 = set_auth_from_request a ++
      [SDKAction.call "sdk.identity.issuer.issue_credential"
        [("did", .str r.did),
         ("credential_name", .str r.credential_name),
         ("values", .obj r.values),
         ("owner_email", .str r.owner_email)]] := by
  cases outcome with
  | error e => rfl
  | ok result =>
    rcases h : issue_credential_success result with e | resp <;>
      simp [issue_credential, h]

/-- Claim C4: every route handler turns every exception raised during
its SDK call, including exceptions of unrecognized types, into the
structured response of `handle_sdk_error`, whose body always carries an
`error` message and a `type` tag; unrecognized exceptions get status 500
with type `UnknownError`.  No handler lets the exception propagate. -/
theorem C4_structured_error_responses :
    (∀ e, hasKey (handle_sdk_error e) "error" = true ∧ hasKey (handle_sdk_error e) "type" = true)
  ∧ (∀ m, handle_sdk_error (.otherError m) =
      { status_code := 500
        content := [("error", .str m), ("type", .str "UnknownError")] })
  ∧ (∀ r e, (sign_in_initiate r (.error e)).2 = handle_sdk_error e)
  ∧ (∀ r e, (sign_in_confirm r (.error e)).2 = handle_sdk_error e)
  ∧ (∀ r e, (admin_login r (.error e)).2 = handle_sdk_error e)
  ∧ (∀ r e, (token_refresh r (.error e)).2 = handle_sdk_error e)
  ∧ (∀ r a e, (get_encrypted_key r a (.error e)).2 = handle_sdk_error e)
  ∧ (∀ r a e, (generate_encrypted_key r a (.error e)).2 = handle_sdk_error e)
  ∧ (∀ r a e, (issue_credential r a (.error e)).2 = handle_sdk_error e)
  ∧ (∀ cid tid a e, (get_credential_offer cid tid a (.error e)).2 = handle_sdk_error e)
  ∧ (∀ r a e, (store_credential r a (.error e)).2 = handle_sdk_error e)
  ∧ (∀ r a e, (retrieve_user_credential r a (.error e)).2 = handle_sdk_error e)
  ∧ (∀ r a e, (get_all_user_credentials r a (.error e)).2 = handle_sdk_error e)
  ∧ (∀ r a e, (verify_sign_in r a (.error e)).2 = handle_sdk_error e)
  ∧ (∀ i a e, (get_link_store i a (.error e)).2 = handle_sdk_error e)
  ∧ (∀ r a e, (post_link_store r a (.error e)).2 = handle_sdk_error e)
  ∧ (∀ r sid a e, (verify_callback r sid a (.error e)).2 = handle_sdk_error e)
  ∧ (∀ r e, (start_session r (.error e)).2 = handle_sdk_error e)
  ∧ (∀ r e, (end_session r (.error e)).2 = handle_sdk_error e) :=
  ⟨fun e => by cases e <;> exact ⟨rfl, rfl⟩,
   fun _msg => rfl,
   fun _r1 _e1 => rfl, fun _r2 _e2 => rfl, fun _r3 _e3 => rfl, fun _r4 _e4 => rfl,
   fun _r5 _a5 _e5 => rfl, fun _r6 _a6 _e6 => rfl, fun _r7 _a7 _e7 => rfl,
   fun _c8 _t8 _a8 _e8 => rfl, fun _r9 _a9 _e9 => rfl, fun _r10 _a10 _e10 => rfl,
   fun _r11 _a11 _e11 => rfl, fun _r12 _a12 _e12 => rfl, fun _i13 _a13 _e13 => rfl,
   fun _r14 _a14 _e14 => rfl, fun _r15 _s15 _a15 _e15 => rfl,
   fun _r16 _e16 => rfl, fun _r17 _e17 => rfl⟩

/-- Claim C5: every handler performs exactly one SDK operation per
request, whether the call succeeds or raises, and performs no other SDK
interaction beyond token installation (the bearer token from the
request header, or the token pair of the auth routes): at most one
`set_tokens`, and every traced action is the single dispatch or a token
installation. -/
theorem C5_single_dispatch :
    (∀ r outcome, countCalls (sign_in_initiate r outcome).1 = 1
      ∧ countSetTokens (sign_in_initiate r outcome).1 ≤ 1
      ∧ ((sign_in_initiate r outcome).1.all fun a => a.isCall || a.isTokenInstall) = true)
  ∧ (∀ r outcome, countCalls (sign_in_confirm r outcome).1 = 1
      ∧ countSetTokens (sign_in_confirm r outcome).1 ≤ 1
      ∧ ((sign_in_confirm r outcome).1.all fun a => a.isCall || a.isTokenInstall) = true)
  ∧ (∀ r outcome, countCalls (admin_login r outcome).1 = 1
      ∧ countSetTokens (admin_login r outcome).1 ≤ 1
      ∧ ((admin_login r outcome).1.all fun a => a.isCall || a.isTokenInstall) = true)
  ∧ (∀ r outcome, countCalls (token_refresh r outcome).1 = 1
      ∧ countSetTokens (token_refresh r outcome).1 ≤ 1
      ∧ ((token_refresh r outcome).1.all fun a => a.isCall || a.isTokenInstall) = true)
  ∧ (∀ r a outcome, countCalls (get_encrypted_key r a outcome).1 = 1
      ∧ countSetTokens (get_encrypted_key r a outcome).1 ≤ 1
      ∧ ((get_encrypted_key r a outcome).1.all fun x => x.isCall || x.isTokenInstall) = true)
  ∧ (∀ r a outcome, countCalls (generate_encrypted_key r a outcome).1 = 1
      ∧ countSetTokens (generate_encrypted_key r a outcome).1 ≤ 1
      ∧ ((generate_encrypted_key r a outcome).1.all fun x => x.isCall || x.isTokenInstall) = true)
  ∧ (∀ r a outcome, countCalls (issue_credential r a outcome).1 = 1
      ∧ countSetTokens (issue_credential r a outcome).1 ≤ 1
      ∧ ((issue_credential r a outcome).1.all fun x => x.isCall || x.isTokenInstall) = true)
  ∧ (∀ cid tid a outcome, countCalls (get_credential_offer cid tid a outcome).1 = 1
      ∧ countSetTokens (get_credential_offer cid tid a outcome).1 ≤ 1
      ∧ ((get_credential_offer cid tid a outcome).1.all fun x => x.isCall || x.isTokenInstall) = true)
  ∧ (∀ r a outcome, countCalls (store_credential r a outcome).1 = 1
      ∧ countSetTokens (store_credential r a outcome).1 ≤ 1
      ∧ ((store_credential r a outcome).1.all fun x => x.isCall || x.isTokenInstall) = true)
  ∧ (∀ r a outcome, countCalls (retrieve_user_credential r a outcome).1 = 1
      ∧ countSetTokens (retrieve_user_credential r a outcome).1 ≤ 1
      ∧ ((retrieve_user_credential r a outcome).1.all fun x => x.isCall || x.isTokenInstall) = true)
  ∧ (∀ r a outcome, countCalls (get_all_user_credentials r a outcome).1 = 1
      ∧ countSetTokens (get_all_user_credentials r a outcome).1 ≤ 1
      ∧ ((get_all_user_credentials r a outcome).1.all fun x => x.isCall || x.isTokenInstall) = true)
  ∧ (∀ r a outcome, countCalls (verify_sign_in r a outcome).1 = 1
      ∧ countSetTokens (verify_sign_in r a outcome).1 ≤ 1
      ∧ ((verify_sign_in r a outcome).1.all fun x => x.isCall || x.isTokenInstall) = true)
  ∧ (∀ i a outcome, countCalls (get_link_store i a outcome).1 = 1
      ∧ countSetTokens (get_link_store i a outcome).1 ≤ 1
      ∧ ((get_link_store i a outcome).1.all fun x => x.isCall || x.isTokenInstall) = true)
  ∧ (∀ r a outcome, countCalls (post_link_store r a outcome).1 = 1
      ∧ countSetTokens (post_link_store r a outcome).1 ≤ 1
      ∧ ((post_link_store r a outcome).1.all fun x => x.isCall || x.isTokenInstall) = true)
  ∧ (∀ r sid a outcome, countCalls (verify_callback r sid a outcome).1 = 1
      ∧ countSetTokens (verify_callback r sid a outcome).1 ≤ 1
      ∧ ((verify_callback r sid a outcome).1.all fun x => x.isCall || x.isTokenInstall) = true)
  ∧ (∀ r outcome, countCalls (start_session r outcome).1 = 1
      ∧ countSetTokens (start_session r outcome).1 ≤ 1
      ∧ ((start_session r outcome).1.all fun a => a.isCall || a.isTokenInstall) = true)
  ∧ (∀ r outcome, countCalls (end_session r outcome).1 = 1
      ∧ countSetTokens (end_session r outcome).1 ≤ 1
      ∧ ((end_session r outcome).1.all fun a => a.isCall || a.isTokenInstall) = true) := by
  refine ⟨fun r outcome => ?_, fun r outcome => ?_, fun r outcome => ?_, fun r outcome => ?_,
          fun r a outcome => ?_, fun r a outcome => ?_, fun r a outcome => ?_,
          fun cid tid a outcome => ?_, fun r a outcome => ?_, fun r a outcome => ?_,
          fun r a outcome => ?_, fun r a outcome => ?_, fun i a outcome => ?_,
          fun r a outcome => ?_, fun r sid a outcome => ?_,
          fun r outcome => ?_, fun r outcome => ?_⟩
  case refine_1 => cases outcome with
    | error e => exact ⟨rfl, Nat.zero_le 1, all_call_or_install _⟩
    | ok v => exact ⟨rfl, Nat.zero_le 1, all_call_or_install _⟩
  case refine_2 => cases outcome with
    | error e => exact ⟨rfl, Nat.zero_le 1, all_call_or_install _⟩
    | ok v => exact ⟨rfl, Nat.le_refl 1, all_call_or_install _⟩
  case refine_3 => cases outcome with
    | error e => exact ⟨rfl, Nat.zero_le 1, all_call_or_install _⟩
    | ok v => exact ⟨rfl, Nat.zero_le 1, all_call_or_install _⟩
  case refine_4 => cases outcome with
    | error e => exact ⟨rfl, Nat.zero_le 1, all_call_or_install _⟩
    | ok v => exact ⟨rfl, Nat.le_refl 1, all_call_or_install _⟩
  case refine_5 => cases outcome with
    | error e => exact ⟨countCalls_auth_trace a _ _,
        (countSetTokens_auth_trace a _ _).le.trans (Nat.zero_le 1), all_call_or_install _⟩
    | ok v => exact ⟨countCalls_auth_trace a _ _,
        (countSetTokens_auth_trace a _ _).le.trans (Nat.zero_le 1), all_call_or_install _⟩
  case refine_6 => cases outcome with
    | error e => exact ⟨countCalls_auth_trace a _ _,
        (countSetTokens_auth_trace a _ _).le.trans (Nat.zero_le 1), all_call_or_install _⟩
    | ok v => exact ⟨countCalls_auth_trace a _ _,
        (countSetTokens_auth_trace a _ _).le.trans (Nat.zero_le 1), all_call_or_install _⟩
  case refine_7 =>
    rw [issue_credential_fst]
    exact ⟨countCalls_auth_trace a _ _,
      (countSetTokens_auth_trace a _ _).le.trans (Nat.zero_le 1), all_call_or_install _⟩
  case refine_8 => cases outcome with
    | error e => exact ⟨countCalls_auth_trace a _ _,
        (countSetTokens_auth_trace a _ _).le.trans (Nat.zero_le 1), all_call_or_install _⟩
    | ok v => exact ⟨countCalls_auth_trace a _ _,
        (countSetTokens_auth_trace a _ _).le.trans (Nat.zero_le 1), all_call_or_install _⟩
  case refine_9 => cases outcome with
    | error e => exact ⟨countCalls_auth_trace a _ _,
        (countSetTokens_auth_trace a _ _).le.trans (Nat.zero_le 1), all_call_or_install _⟩
    | ok v => exact ⟨countCalls_auth_trace a _ _,
        (countSetTokens_auth_trace a _ _).le.trans (Nat.zero_le 1), all_call_or_install _⟩
  case refine_10 => cases outcome with
    | error e => exact ⟨countCalls_auth_trace a _ _,
        (countSetTokens_auth_trace a _ _).le.trans (Nat.zero_le 1), all_call_or_install _⟩
    | ok v => exact ⟨countCalls_auth_trace a _ _,
        (countSetTokens_auth_trace a _ _).le.trans (Nat.zero_le 1), all_call_or_install _⟩
  case refine_11 => cases outcome with
    | error e => exact ⟨countCalls_auth_trace a _ _,
        (countSetTokens_auth_trace a _ _).le.trans (Nat.zero_le 1), all_call_or_install _⟩
    | ok v => exact ⟨countCalls_auth_trace a _ _,
        (countSetTokens_auth_trace a _ _).le.trans (Nat.zero_le 1), all_call_or_install _⟩
  case refine_12 => cases outcome with
    | error e => exact ⟨countCalls_auth_trace a _ _,
        (countSetTokens_auth_trace a _ _).le.trans (Nat.zero_le 1), all_call_or_install _⟩
    | ok v => exact ⟨countCalls_auth_trace a _ _,
        (countSetTokens_auth_trace a _ _).le.trans (Nat.zero_le 1), all_call_or_install _⟩
  case refine_13 => cases outcome with
    | error e => exact ⟨countCalls_auth_trace a _ _,
        (countSetTokens_auth_trace a _ _).le.trans (Nat.zero_le 1), all_call_or_install _⟩
    | ok v => exact ⟨countCalls_auth_trace a _ _,
        (countSetTokens_auth_trace a _ _).le.trans (Nat.zero_le 1), all_call_or_install _⟩
  case refine_14 => cases outcome with
    | error e => exact ⟨countCalls_auth_trace a _ _,
        (countSetTokens_auth_trace a _ _).le.trans (Nat.zero_le 1), all_call_or_install _⟩
    | ok v => exact ⟨countCalls_auth_trace a _ _,
        (countSetTokens_auth_trace a _ _).le.trans (Nat.zero_le 1), all_call_or_install _⟩
  case refine_15 => cases outcome with
    | error e => exact ⟨countCalls_auth_trace a _ _,
        (countSetTokens_auth_trace a _ _).le.trans (Nat.zero_le 1), all_call_or_install _⟩
    | ok v => exact ⟨countCalls_auth_trace a _ _,
        (countSetTokens_auth_trace a _ _).le.trans (Nat.zero_le 1), all_call_or_install _⟩
  case refine_16 => cases outcome with
    | error e => exact ⟨rfl, Nat.zero_le 1, all_call_or_install _⟩
    | ok v => exact ⟨rfl, Nat.zero_le 1, all_call_or_install _⟩
  case refine_17 => cases outcome with
    | error e => exact ⟨rfl, Nat.zero_le 1, all_call_or_install _⟩
    | ok v => exact ⟨rfl, Nat.zero_le 1, all_call_or_install _⟩

/-- A success response of the issue-credential body has exactly one of
the two documented key sets. -/
theorem issue_success_keys (result : List (String × JValue)) (resp : JSONResponse)
    (h : issue_credential_success result = .ok resp) :
    contentKeys resp = ["qrCodeLink", "schemaType"] ∨ contentKeys resp = ["txId", "claimId"] := by
  unfold issue_credential_success at h
  split at h
  · split at h
    · exact Except.noConfusion h
    · split at h
      · exact Except.noConfusion h
      · cases h
        left
        rfl
  · split at h
    · exact Except.noConfusion h
    · split at h
      · exact Except.noConfusion h
      · cases h
        right
        rfl

theorem handle_sdk_error_no_qr (e : SDKException) :
    hasKey (handle_sdk_error e) "qrCodeLink" = false := by
  cases e <;> rfl

/-- The success-or-KeyError body of `issue_credential`, exposed on the
response component. -/
theorem issue_credential_snd (r : IssueCredentialRequest) (a : Option String)
    (result : List (String × JValue)) :
    (issue_credential r a (.ok result)).2 =
      (match issue_credential_success result with
       | .ok resp => resp
       | .error e => handle_sdk_error e) := by
  rcases h : issue_credential_success result with e | resp <;> simp [issue_credential, h]

/-- Claim C6: when the SDK result of issue-credential contains a
`qr_code_link` (and its companion `schema_type`), the response is exactly
`{qrCodeLink, schemaType}`; when it contains no `qr_code_link` but a
transaction id (and claim id), the response is exactly `{txId, claimId}`;
and no response of this endpoint ever carries keys of both shapes. -/
theorem C6_issue_credential_shapes :
    (∀ (r : IssueCredentialRequest) (a : Option String)
        (result : List (String × JValue)) (q s : JValue),
        result.lookup "qr_code_link" = some q →
        result.lookup "schema_type" = some s →
        (issue_credential r a (.ok result)).2 =
          { status_code := 200, content := [("qrCodeLink", q), ("schemaType", s)] })
  ∧ (∀ (r : IssueCredentialRequest) (a : Option String)
        (result : List (String × JValue)) (t c : JValue),
        result.lookup "qr_code_link" = none →
        result.lookup "tx_id" = some t →
        result.lookup "claim_id" = some c →
        (issue_credential r a (.ok result)).2 =
          { status_code := 200, content := [("txId", t), ("claimId", c)] })
  ∧ (∀ (r : IssueCredentialRequest) (a : Option String)
        (outcome : Except SDKException (List (String × JValue))),
        ¬(hasKey (issue_credential r a outcome).2 "qrCodeLink" = true ∧
          hasKey (issue_credential r a outcome).2 "txId" = true)) := by
  refine ⟨fun r a result q s hq hs => ?_, fun r a result t c hq ht hc => ?_,
          fun r a outcome => ?_⟩
  · have hsucc : issue_credential_success result =
        .ok { status_code := 200, content := [("qrCodeLink", q), ("schemaType", s)] } := by
      simp [issue_credential_success, pyDictContains, pyDictGet, hq, hs]
    rw [issue_credential_snd, hsucc]
  · have hsucc : issue_credential_success result =
        .ok { status_code := 200, content := [("txId", t), ("claimId", c)] } := by
      simp [issue_credential_success, pyDictContains, pyDictGet, hq, ht, hc]
    rw [issue_credential_snd, hsucc]
  · rintro ⟨h1, h2⟩
    cases outcome with
    | error e =>
      replace h1 : hasKey (handle_sdk_error e) "qrCodeLink" = true := h1
      rw [handle_sdk_error_no_qr] at h1
      exact Bool.noConfusion h1
    | ok result =>
      rw [issue_credential_snd] at h1 h2
      rcases h : issue_credential_success result with e | resp
      · simp only [h] at h1
        rw [handle_sdk_error_no_qr] at h1
        exact Bool.noConfusion h1
      · simp only [h] at h1 h2
        rcases issue_success_keys result resp h with hk | hk
        · simp only [hasKey] at h2
          rw [hk] at h2
          exact absurd h2 (by decide)
        · simp only [hasKey] at h1
          rw [hk] at h1
          exact absurd h1 (by decide)

/-- Witness for C6_issue_credential_shapes at concrete results. -/
theorem C6_issue_credential_shapes_witness :
    (issue_credential ⟨"did:ex:1", "KYC", [], "a@b.c"⟩ none
        (.ok [("qr_code_link", .str "https://qr"), ("schema_type", .str "KYC")])).2 =
      { status_code := 200
        content := [("qrCodeLink", JValue.str "https://qr"), ("schemaType", JValue.str "KYC")] }
    ∧ (issue_credential ⟨"did:ex:1", "KYC", [], "a@b.c"⟩ none
        (.ok [("tx_id", .str "tx-1"), ("claim_id", .str "cl-1")])).2 =
      { status_code := 200
        content := [("txId", JValue.str "tx-1"), ("claimId", JValue.str "cl-1")] } :=
  ⟨C6_issue_credential_shapes.1 _ none _ _ _ rfl rfl,
   C6_issue_credential_shapes.2.1 _ none _ _ _ rfl rfl rfl⟩

theorem pyStartswith_bearer_append (t : String) :
    pyStartswith ("Bearer " ++ t) "Bearer " = true := by
  simp [pyStartswith, List.isPrefixOf_iff_prefix]

theorem pySliceFrom_bearer_append (t : String) :
    pySliceFrom ("Bearer " ++ t) 7 = t := by
  show String.mk (("Bearer ".data ++ t.data).drop 7) = t
  rw [List.drop_left' (by rfl : "Bearer ".data.length = 7)]

theorem not_bearer_startswith (a : String) (h : ¬ ∃ t, a = "Bearer " ++ t) :
    pyStartswith a "Bearer " = false := by
  cases hb : pyStartswith a "Bearer " with
  | false => rfl
  | true =>
    exfalso
    apply h
    unfold pyStartswith at hb
    rw [ List.isPrefixOf_iff_prefix] at hb
    obtain ⟨u, hu⟩ := hb
    exact ⟨⟨u⟩, String.ext hu.symm⟩

/-- Claim C7: a request whose authorization header has the form
`Bearer <token>` makes `set_auth_from_request` install exactly the
substring after the `Bearer ` prefix (the 7 leading code points) as the
SDK's auth token; an absent header, or one not of that form, performs no
SDK interaction and leaves the SDK's auth-token state unchanged. -/
theorem C7_bearer_extraction :
    (∀ t : String, set_auth_from_request (some ("Bearer " ++ t)) = [SDKAction.setAuthToken t]
      ∧ ∀ s : SDKState, applyActions s (set_auth_from_request (some ("Bearer " ++ t))) =
          { s with auth_token := some t })
  ∧ (∀ s : SDKState, applyActions s (set_auth_from_request none) = s)
  ∧ (∀ a : String, (¬ ∃ t, a = "Bearer " ++ t) →
      set_auth_from_request (some a) = []
      ∧ ∀ s : SDKState, applyActions s (set_auth_from_request (some a)) = s) := by
  refine ⟨fun t => ?_, fun s => rfl, fun a ha => ?_⟩
  · have h1 : set_auth_from_request (some ("Bearer " ++ t)) = [SDKAction.setAuthToken t] := by
      simp [set_auth_from_request, pyStartswith_bearer_append, pySliceFrom_bearer_append]
    exact ⟨h1, fun s => by rw [h1]; rfl⟩
  · have h1 : set_auth_from_request (some a) = [] := by
      simp [set_auth_from_request, not_bearer_startswith a ha]
    exact ⟨h1, fun s => by rw [h1]; rfl⟩

/-- Witness for C7_bearer_extraction: a well-formed header installs its
token; a malformed header leaves the state untouched. -/
theorem C7_bearer_extraction_witness :
    set_auth_from_request (some "Token abc") = []
    ∧ applyActions ⟨some "old", none⟩ (set_auth_from_request (some "Token abc")) =
        ⟨some "old", none⟩ :=
  C7_bearer_extraction.2.2 "Token abc"
    (fun ⟨t, h⟩ => by
      have hd := congrArg String.data h
      simp at hd) |>.imp id (fun h => h ⟨some "old", none⟩)

/-- Claim C8: a successful OTP confirmation echoes the SDK's token pair
verbatim as `{access_token, refresh_token}`, renaming or dropping
nothing. -/
theorem C8_confirm_token_echo :
    ∀ (r : ConfirmOTPRequest) (tokens : AuthTokens),
      (sign_in_confirm r (.ok tokens)).2 =
        { status_code := 200
          content := [("access_token", .str tokens.access_token),
                      ("refresh_token", .str tokens.refresh_token)] } :=
  fun _ _ => rfl

/-- Claim C9: `/health` always returns status 200 with the fixed body
`{status: "ok", service: "dcid-server-sdk-test-server"}`, independent of
the SDK client's state. -/
theorem C9_health_fixed :
    (∀ s : SDKState, health s =
      { status_code := 200
        content := [("status", JValue.str "ok"),
                    ("service", JValue.str "dcid-server-sdk-test-server")] })
    ∧ ∀ s s' : SDKState, health s = health s' :=
  ⟨fun _ => rfl, fun _ _ => rfl⟩

/-- Claim C10: a request body omitting the optional boolean fields gets
the fixed pydantic defaults — `encrypted = true` for store-credential,
`includeCidOnly = false` for retrieve-user-credential,
`includeCredentialData = false` for get-all-user-credentials — and the
handler passes exactly these defaults to the SDK call. -/
theorem C10_optional_defaults :
    (∀ d ct c, (parseStoreCredentialRequest d ct c none).encrypted = true)
  ∧ (∀ d ct, (parseRetrieveUserCredentialRequest d ct none).include_cid_only = false)
  ∧ (∀ d, (parseGetAllUserCredentialsRequest d none).include_credential_data = false)
  ∧ (∀ d ct c a outcome, ∃ args,
      SDKAction.call "sdk.identity.ipfs.store_credential" args ∈
        (store_credential (parseStoreCredentialRequest d ct c none) a outcome).1
      ∧ ("encrypted", JValue.bool true) ∈ args)
  ∧ (∀ d ct a outcome, ∃ args,
      SDKAction.call "sdk.identity.ipfs.retrieve_user_credential" args ∈
        (retrieve_user_credential (parseRetrieveUserCredentialRequest d ct none) a outcome).1
      ∧ ("include_cid_only", JValue.bool false) ∈ args)
  ∧ (∀ d a outcome, ∃ args,
      SDKAction.call "sdk.identity.ipfs.get_all_user_credentials" args ∈
        (get_all_user_credentials (parseGetAllUserCredentialsRequest d none) a outcome).1
      ∧ ("include_credential_data", JValue.bool false) ∈ args) := by
  refine ⟨fun _d _ct _c => rfl, fun _d _ct => rfl, fun _d => rfl,
          fun d ct c a outcome => ?_, fun d ct a outcome => ?_, fun d a outcome => ?_⟩
  · cases outcome <;>
      exact ⟨_, List.mem_append_right _ (List.Mem.head _),
        List.Mem.tail _ (List.Mem.tail _ (List.Mem.tail _ (List.Mem.head _)))⟩
  · cases outcome <;>
      exact ⟨_, List.mem_append_right _ (List.Mem.head _),
        List.Mem.tail _ (List.Mem.tail _ (List.Mem.head _))⟩
  · cases outcome <;>
      exact ⟨_, List.mem_append_right _ (List.Mem.head _),
        List.Mem.tail _ (List.Mem.head _)⟩
